import Mathlib

/-!
Verification development for the `ProjectManagementRepository` layer
(`design_pattern/repository/repository.py`, with row mapping from
`design_pattern/factory/factory.py` and the dataclasses in
`logic/entities.py`).

The SQLite-backed repository is embedded shallowly: the database is a pure
`DB` value (three tables plus the AUTOINCREMENT counters), each repository
method becomes a function from `DB` (and the method's arguments) to a result
together with the resulting `DB`, and every Python exception kind is a
constructor of `RepoError`.  Strings are modelled over their character
lists; character classes such as Python's `\d` are modelled at their ASCII
meaning (every concrete input appearing below is ASCII).
-/

namespace PMRepo

/-! ### Regular-expression matching as used by `re.match(r'^...$', s)`

The two patterns in the source are `DATE_FORMAT = ^\d{4}-\d{2}-\d{2}$` and
`EMAIL_FORMAT = ^[a-zA-Z0-9._%+-]+@[a-zA-Z0-9.-]+\.[a-zA-Z]{2,}$`.
Python's `$` (without `re.MULTILINE`) matches at the end of the string and
also just before a single newline that ends the string, so `re.match` with a
`^...$` pattern accepts both the exact matches of the pattern body and those
matches followed by one trailing `'\n'`.  `pyAnchoredMatch` captures that. -/

def pyAnchoredMatch (core : List Char → Bool) (l : List Char) : Bool :=
  core l || (l.getLast? == some '\n' && core l.dropLast)

/-- The body of `DATE_FORMAT`: exactly `\d{4}-\d{2}-\d{2}`. -/
def dateCoreMatch : List Char → Bool
  | [y1, y2, y3, y4, s1, m1, m2, s2, d1, d2] =>
    y1.isDigit && y2.isDigit && y3.isDigit && y4.isDigit &&
    s1 == '-' && m1.isDigit && m2.isDigit && s2 == '-' &&
    d1.isDigit && d2.isDigit
  | _ => false

/-- Characters allowed in the local part of `EMAIL_FORMAT`: `[a-zA-Z0-9._%+-]`. -/
def isLocalChar (c : Char) : Bool :=
  c.isAlphanum || c == '.' || c == '_' || c == '%' || c == '+' || c == '-'

/-- Characters allowed in the domain part of `EMAIL_FORMAT`: `[a-zA-Z0-9.-]`. -/
def isDomainChar (c : Char) : Bool :=
  c.isAlphanum || c == '.' || c == '-'

/-- The part of `EMAIL_FORMAT` after the `@`: `[a-zA-Z0-9.-]+\.[a-zA-Z]{2,}`.
Since the character classes cannot consume `'.'`-separators ambiguously the
backtracking regex succeeds exactly when some split at a dot works. -/
def emailTailMatch (rest : List Char) : Bool :=
  (List.range rest.length).any fun j =>
    rest[j]? == some '.' && 1 ≤ j && (rest.take j).all isDomainChar &&
    2 ≤ (rest.drop (j + 1)).length && (rest.drop (j + 1)).all Char.isAlpha

/-- The body of `EMAIL_FORMAT`.  Neither character class contains `'@'`, so a
match must split the string at its first `'@'`. -/
def emailCoreMatch (l : List Char) : Bool :=
  match l.findIdx? (· == '@') with
  | none => false
  | some i =>
    let local_ := l.take i
    let rest := l.drop (i + 1)
    (!local_.isEmpty) && local_.all isLocalChar && emailTailMatch rest

/-! ### `datetime.strptime(date_str, "%Y-%m-%d")`

CPython compiles the format to the regex
`(?P<Y>\d\d\d\d)\-(?P<m>1[0-2]|0[1-9]|[1-9])\-(?P<d>3[01]|[12]\d|0[1-9]|[1-9])`,
matches it from the start of the string, raises `ValueError` when the match
fails or does not consume the whole string, and finally builds
`datetime(year, month, day)`, which raises `ValueError` unless
`1 <= year` and the day exists in that month (`MINYEAR = 1`; four digits keep
the year below `MAXYEAR`).  The ordered alternations below commit exactly as
the regex does; on the inputs reachable here no backtracking changes the
outcome. -/

def digitVal (c : Char) : Nat := c.toNat - 48

/-- `(?P<m>1[0-2]|0[1-9]|[1-9])`, first-match ordered alternation. -/
def parseMonth : List Char → Option (Nat × List Char)
  | [] => none
  | c :: rest =>
    if c == '1' then
      match rest with
      | c2 :: rest2 =>
        if c2 == '0' || c2 == '1' || c2 == '2' then some (10 + digitVal c2, rest2)
        else some (1, rest)
      | [] => some (1, [])
    else if c == '0' then
      match rest with
      | c2 :: rest2 =>
        if '1' ≤ c2 && c2 ≤ '9' then some (digitVal c2, rest2) else none
      | [] => none
    else if '2' ≤ c && c ≤ '9' then some (digitVal c, rest)
    else none

/-- `(?P<d>3[01]|[12]\d|0[1-9]|[1-9])`, first-match ordered alternation. -/
def parseDay : List Char → Option (Nat × List Char)
  | [] => none
  | c :: rest =>
    if c == '3' then
      match rest with
      | c2 :: rest2 =>
        if c2 == '0' || c2 == '1' then some (30 + digitVal c2, rest2)
        else some (3, rest)
      | [] => some (3, [])
    else if c == '1' || c == '2' then
      match rest with
      | c2 :: rest2 =>
        if c2.isDigit then some (10 * digitVal c + digitVal c2, rest2)
        else some (digitVal c, rest)
      | [] => some (digitVal c, [])
    else if c == '0' then
      match rest with
      | c2 :: rest2 =>
        if '1' ≤ c2 && c2 ≤ '9' then some (digitVal c2, rest2) else none
      | [] => none
    else if '4' ≤ c && c ≤ '9' then some (digitVal c, rest)
    else none

/-- Gregorian leap-year rule used by `datetime`. -/
def isLeap (y : Nat) : Bool := y % 4 == 0 && (y % 100 != 0 || y % 400 == 0)

def daysInMonth (y m : Nat) : Nat :=
  if m == 2 then (if isLeap y then 29 else 28)
  else if m == 4 || m == 6 || m == 9 || m == 11 then 30
  else 31

/-- `datetime.strptime(l, "%Y-%m-%d")` succeeds (returns without raising). -/
def strptimeYmdOk (l : List Char) : Bool :=
  match l with
  | y1 :: y2 :: y3 :: y4 :: '-' :: rest =>
    if y1.isDigit && y2.isDigit && y3.isDigit && y4.isDigit then
      let year := 1000 * digitVal y1 + 100 * digitVal y2 + 10 * digitVal y3 + digitVal y4
      match parseMonth rest with
      | some (month, rest2) =>
        match rest2 with
        | '-' :: rest3 =>
          match parseDay rest3 with
          | some (day, rest4) =>
            rest4.isEmpty && 1 ≤ year && day ≤ daysInMonth year month
          | none => false
        | _ => false
      | none => false
    else false
  | _ => false

/-- Failure kinds of `_validate_date`: the two `ValueError` messages
`"Invalid date format: ..."` and `"Invalid date: ..."`. -/
inductive DateFail where
  | invalidFormat
  | invalidValue
deriving DecidableEq, Repr

/-- `ProjectManagementRepository._validate_date` (repository.py lines
113-128): first `re.match(DATE_FORMAT, date_str)`, then
`datetime.strptime(date_str, "%Y-%m-%d")`. -/
def validate_date (s : String) : Except DateFail Unit :=
  if pyAnchoredMatch dateCoreMatch s.data then
    if strptimeYmdOk s.data then .ok () else .error .invalidValue
  else .error .invalidFormat

/-- `ProjectManagementRepository._validate_email` (lines 100-111):
`re.match(EMAIL_FORMAT, email)` must succeed. -/
def emailFormatOk (s : String) : Bool :=
  pyAnchoredMatch emailCoreMatch s.data

deriving instance DecidableEq for Except

/-! ### Domain records and database state

`logic/entities.py` defines dataclasses `Person`, `Task`, `Milestone` whose
fields coincide with the table columns created by `_initialize_database`
(repository.py lines 51-98); `factory.py` maps a row positionally onto the
matching dataclass, so one structure per entity serves as both the stored row
and the returned record.  `role` and `milestone_id` are the nullable columns
reachable through the repository operations.  The `next...Id` fields model
the `AUTOINCREMENT` counters (first assigned id is 1, never reused). -/

structure PersonRow where
  id : Nat
  name : String
  email : String
  role : Option String
deriving DecidableEq, Repr

structure MilestoneRow where
  id : Nat
  name : String
deriving DecidableEq, Repr

structure TaskRow where
  id : Nat
  title : String
  description : String
  status : String
  priority : String
  start_date : String
  due_date : String
  person_id : Nat
  milestone_id : Option Nat
deriving DecidableEq, Repr

structure DB where
  persons : List PersonRow
  milestones : List MilestoneRow
  tasks : List TaskRow
  nextPersonId : Nat := 1
  nextMilestoneId : Nat := 1
  nextTaskId : Nat := 1
deriving DecidableEq, Repr

/-- The empty freshly-initialized database. -/
def DB.empty : DB := ⟨[], [], [], 1, 1, 1⟩

/-- Python exception kinds raised by the repository, per the spec taxonomy:
`validationError` = `ValueError` from a validator or sort-field check;
`notFound` = `LookupError`; `conflictError` = `sqlite3.IntegrityError`
(re-raised by the repository as `sqlite3.Error`); `storageError` = any other
`sqlite3.Error` (unreachable in this pure model). -/
inductive RepoError where
  | validationError
  | notFound
  | conflictError
  | storageError
deriving DecidableEq, Repr

def VALID_STATUSES : List String := ["ToDo", "InProgress", "Done"]

def VALID_PRIORITIES : List String := ["High", "Medium", "Low"]

/-- `_validate_date` succeeds (used inside `add_task`/`update_task`, where
either `DateFail` kind surfaces as the same `ValueError` class). -/
def dateOk (s : String) : Bool :=
  match validate_date s with
  | .ok _ => true
  | .error _ => false

/-- Python truthiness of an optional string argument (`None` and `""` are
falsy). -/
def optStrTruthy : Option String → Bool
  | none => false
  | some s => s != ""

/-- Python truthiness of an optional integer argument (`None` and `0` are
falsy). -/
def optNatTruthy : Option Nat → Bool
  | none => false
  | some n => n != 0

/-- `new or old` for string-valued fields in the update methods. -/
def strOr (new : Option String) (old : String) : String :=
  match new with
  | some s => if s == "" then old else s
  | none => old

/-- `role or person.role`: the old value may itself be null. -/
def roleOr (new : Option String) (old : Option String) : Option String :=
  match new with
  | some s => if s == "" then old else some s
  | none => old

/-- `person_id or task.person_id` for integer fields. -/
def natOr (new : Option Nat) (old : Nat) : Nat :=
  match new with
  | some n => if n == 0 then old else n
  | none => old

/-- `milestone_id if milestone_id is not None else task.milestone_id`
(repository.py line 464): `None` keeps the old reference, any supplied
integer (including `0`) is taken as given. -/
def milestoneMerge (new old : Option Nat) : Option Nat :=
  match new with
  | some n => some n
  | none => old

/-- `if milestone_id: self._validate_foreign_key("Milestone", "id",
milestone_id)` fails (`LookupError`): the reference is truthy yet names no
existing milestone.  A falsy reference (`None` or `0`) is not checked. -/
def milestoneMissing (st : DB) (o : Option Nat) : Bool :=
  match o with
  | some n => n != 0 && !(st.milestones.any (fun m => m.id == n))
  | none => false

/-- The `PRAGMA foreign_keys = ON` check SQLite applies to `Task.milestone_id`
on INSERT/UPDATE: a non-null value must name an existing milestone. -/
def milestoneFkOk (st : DB) : Option Nat → Bool
  | none => true
  | some n => st.milestones.any (fun m => m.id == n)

/-- The corresponding check for `Task.person_id` (always non-null here). -/
def personFkOk (st : DB) (pid : Nat) : Bool :=
  st.persons.any (fun p => p.id == pid)

/-! ### Person CRUD (repository.py lines 179-321) -/

/-- `add_person(name, email, role)`: `_validate_email`, then INSERT; the
UNIQUE constraint on `email` raises `IntegrityError`, re-raised as
`sqlite3.Error` (the `ConflictError` kind). -/
def add_person (st : DB) (name email : String) (role : Option String) :
    Except RepoError PersonRow × DB :=
  if emailFormatOk email then
    if st.persons.any (fun p => p.email == email) then (.error .conflictError, st)
    else
      let row : PersonRow := ⟨st.nextPersonId, name, email, role⟩
      (.ok row,
       { st with persons := st.persons ++ [row], nextPersonId := st.nextPersonId + 1 })
  else (.error .validationError, st)

/-- `get_person(person_id)`: SELECT by id, `LookupError` when no row. -/
def get_person (st : DB) (pid : Nat) : Except RepoError PersonRow :=
  match st.persons.find? (fun p => p.id == pid) with
  | some row => .ok row
  | none => .error .notFound

/-- `update_person(person_id, name, email, role)`: fetch the old row, merge
each argument with `new or old`, `_validate_email` on the merged email, then
UPDATE (UNIQUE email conflicts surface as `IntegrityError`). -/
def update_person (st : DB) (pid : Nat) (name email role : Option String) :
    Except RepoError PersonRow × DB :=
  match get_person st pid with
  | .error e => (.error e, st)
  | .ok old =>
    let name' := strOr name old.name
    let email' := strOr email old.email
    let role' := roleOr role old.role
    if emailFormatOk email' then
      if st.persons.any (fun p => p.id != pid && p.email == email') then
        (.error .conflictError, st)
      else
        let row : PersonRow := ⟨pid, name', email', role'⟩
        (.ok row,
         { st with persons := st.persons.map (fun p => if p.id == pid then row else p) })
    else (.error .validationError, st)

/-- `delete_person(person_id)`: `_validate_foreign_key("Person", "id", ...)`
(`LookupError` when absent), then DELETE; the `ON DELETE CASCADE` declared on
`Task.person_id` removes every task referencing the person. -/
def delete_person (st : DB) (pid : Nat) : Except RepoError Unit × DB :=
  if st.persons.any (fun p => p.id == pid) then
    (.ok (),
     { st with persons := st.persons.filter (fun p => p.id != pid),
               tasks := st.tasks.filter (fun t => t.person_id != pid) })
  else (.error .notFound, st)

/-! ### Milestone CRUD (repository.py lines 561-695) -/

/-- `add_milestone(name)`: plain INSERT, no validation. -/
def add_milestone (st : DB) (name : String) : Except RepoError MilestoneRow × DB :=
  let row : MilestoneRow := ⟨st.nextMilestoneId, name⟩
  (.ok row,
   { st with milestones := st.milestones ++ [row],
             nextMilestoneId := st.nextMilestoneId + 1 })

/-- `get_milestone(milestone_id)`: SELECT by id, `LookupError` when no row. -/
def get_milestone (st : DB) (mid : Nat) : Except RepoError MilestoneRow :=
  match st.milestones.find? (fun m => m.id == mid) with
  | some row => .ok row
  | none => .error .notFound

/-- `delete_milestone(milestone_id)`: existence check, then DELETE; the
`ON DELETE SET NULL` declared on `Task.milestone_id` clears the reference on
every task that carried it, keeping the tasks themselves. -/
def delete_milestone (st : DB) (mid : Nat) : Except RepoError Unit × DB :=
  if st.milestones.any (fun m => m.id == mid) then
    (.ok (),
     { st with milestones := st.milestones.filter (fun m => m.id != mid),
               tasks := st.tasks.map (fun t =>
                 if t.milestone_id == some mid then { t with milestone_id := none } else t) })
  else (.error .notFound, st)

/-! ### Task CRUD (repository.py lines 352-558) -/

/-- `add_task(...)` (lines 352-398): `_validate_status`, `_validate_priority`,
`_validate_date` twice, `_validate_foreign_key` on `person_id`, the same on
`milestone_id` only when it is truthy (`if milestone_id:`), then INSERT.  A
falsy-but-non-null `milestone_id` (`0`) skips validation and is rejected by
the storage-level foreign-key check instead. -/
def add_task (st : DB) (title description status priority start_date due_date : String)
    (person_id : Nat) (milestone_id : Option Nat) : Except RepoError TaskRow × DB :=
  if !(VALID_STATUSES.contains status) then (.error .validationError, st)
  else if !(VALID_PRIORITIES.contains priority) then (.error .validationError, st)
  else if !(dateOk start_date) then (.error .validationError, st)
  else if !(dateOk due_date) then (.error .validationError, st)
  else if !(st.persons.any (fun p => p.id == person_id)) then (.error .notFound, st)
  else if milestoneMissing st milestone_id then (.error .notFound, st)
  else if !(personFkOk st person_id && milestoneFkOk st milestone_id) then
    (.error .conflictError, st)
  else
    let row : TaskRow := ⟨st.nextTaskId, title, description, status, priority,
                          start_date, due_date, person_id, milestone_id⟩
    (.ok row, { st with tasks := st.tasks ++ [row], nextTaskId := st.nextTaskId + 1 })

/-- `get_task(task_id)`: SELECT by id, `LookupError` when no row. -/
def get_task (st : DB) (tid : Nat) : Except RepoError TaskRow :=
  match st.tasks.find? (fun t => t.id == tid) with
  | some row => .ok row
  | none => .error .notFound

/-- `update_task(task_id, ...)` (lines 430-488): fetch the old row; merge
every field with `new or old` except `milestone_id`, which uses
`milestone_id if milestone_id is not None else task.milestone_id`; re-run the
full validation chain on the merged values; then UPDATE (foreign keys checked
by storage). -/
def update_task (st : DB) (task_id : Nat)
    (title description status priority start_date due_date : Option String)
    (person_id : Option Nat) (milestone_id : Option Nat) :
    Except RepoError TaskRow × DB :=
  match get_task st task_id with
  | .error e => (.error e, st)
  | .ok old =>
    let title' := strOr title old.title
    let description' := strOr description old.description
    let status' := strOr status old.status
    let priority' := strOr priority old.priority
    let start_date' := strOr start_date old.start_date
    let due_date' := strOr due_date old.due_date
    let person_id' := natOr person_id old.person_id
    let milestone_id' := milestoneMerge milestone_id old.milestone_id
    if !(VALID_STATUSES.contains status') then (.error .validationError, st)
    else if !(VALID_PRIORITIES.contains priority') then (.error .validationError, st)
    else if !(dateOk start_date') then (.error .validationError, st)
    else if !(dateOk due_date') then (.error .validationError, st)
    else if !(st.persons.any (fun p => p.id == person_id')) then (.error .notFound, st)
    else if milestoneMissing st milestone_id' then (.error .notFound, st)
    else if !(personFkOk st person_id' && milestoneFkOk st milestone_id') then
      (.error .conflictError, st)
    else
      let row : TaskRow := ⟨task_id, title', description', status', priority',
                            start_date', due_date', person_id', milestone_id'⟩
      (.ok row,
       { st with tasks := st.tasks.map (fun t => if t.id == task_id then row else t) })

/-- The `valid_sort_fields` allow-list of `get_tasks_by_milestone`. -/
def TASK_SORT_FIELDS : List String :=
  ["id", "title", "status", "priority", "start_date", "due_date"]

/-- `ORDER BY <field>` comparison on task rows (ascending; TEXT columns
compare as strings). -/
def taskFieldLe (field : String) (a b : TaskRow) : Bool :=
  match field with
  | "id" => a.id ≤ b.id
  | "title" => a.title ≤ b.title
  | "status" => a.status ≤ b.status
  | "priority" => a.priority ≤ b.priority
  | "start_date" => a.start_date ≤ b.start_date
  | _ => a.due_date ≤ b.due_date

def insertByLe (le : TaskRow → TaskRow → Bool) (x : TaskRow) :
    List TaskRow → List TaskRow
  | [] => [x]
  | y :: ys => if le x y then x :: y :: ys else y :: insertByLe le x ys

/-- Deterministic model of the engine's `ORDER BY` (a stable sort). -/
def sortTasks (field : String) (l : List TaskRow) : List TaskRow :=
  l.foldr (insertByLe (taskFieldLe field)) []

/-- `get_tasks_by_milestone(milestone_id, status, priority, sort_by)` (lines
512-558): allow-list check on `sort_by`; `if status and status not in
VALID_STATUSES: raise`; same for `priority`; `_validate_foreign_key` on the
milestone; then a SELECT filtered by the milestone and by each truthy filter,
ordered by `sort_by`. -/
def get_tasks_by_milestone (st : DB) (milestone_id : Nat)
    (status priority : Option String) (sort_by : String) :
    Except RepoError (List TaskRow) :=
  if !(TASK_SORT_FIELDS.contains sort_by) then .error .validationError
  else if (match status with
           | some s => s != "" && !(VALID_STATUSES.contains s)
           | none => false) then .error .validationError
  else if (match priority with
           | some s => s != "" && !(VALID_PRIORITIES.contains s)
           | none => false) then .error .validationError
  else if !(st.milestones.any (fun m => m.id == milestone_id)) then .error .notFound
  else
    let rows := st.tasks.filter (fun t => t.milestone_id == some milestone_id)
    let rows := match status with
                | some s => if s != "" then rows.filter (fun t => t.status == s) else rows
                | none => rows
    let rows := match priority with
                | some s => if s != "" then rows.filter (fun t => t.priority == s) else rows
                | none => rows
    .ok (sortTasks sort_by rows)

/-- Well-formedness of reachable database states: every stored id is below
its table's AUTOINCREMENT counter (hence ids are never reassigned). -/
def dbWf (st : DB) : Bool :=
  st.persons.all (fun p => p.id < st.nextPersonId) &&
  st.milestones.all (fun m => m.id < st.nextMilestoneId) &&
  st.tasks.all (fun t => t.id < st.nextTaskId)

/-! ### Claims -/

/-- **C1.** For every status value not in {ToDo, InProgress, Done}, `add_task`
fails with the `ValidationError` kind before any storage mutation: the
returned state is the unchanged input state, so the Task table gains no row.
Validation of status is the first step of `add_task` and gates the insert. -/
theorem c1_add_task_invalid_status_gates_insert
    (st : DB) (title description status priority start_date due_date : String)
    (person_id : Nat) (milestone_id : Option Nat)
    (h : status ∉ VALID_STATUSES) :
    add_task st title description status priority start_date due_date
        person_id milestone_id = (.error .validationError, st) := by
  have hc : VALID_STATUSES.contains status = false := by
    simpa using h
  unfold add_task
  rw [hc]
  rfl

/-- Witness for C1 at a concrete invalid status. -/
theorem c1_witness :
    ("Bogus" : String) ∉ VALID_STATUSES ∧
    add_task DB.empty "T" "" "Bogus" "High" "2025-01-01" "2025-01-02" 1 none
      = (.error .validationError, DB.empty) :=
  ⟨by decide,
   c1_add_task_invalid_status_gates_insert DB.empty "T" "" "Bogus" "High"
     "2025-01-01" "2025-01-02" 1 none (by decide)⟩

/-- **C4.** For every id with no corresponding stored row, `get_person`,
`get_task` and `get_milestone` all return the `NotFound` error kind (they
never produce an empty/absent success value). -/
theorem c4_get_missing_is_notFound
    (st : DB) (pid tid mid : Nat)
    (hp : ∀ p ∈ st.persons, p.id ≠ pid)
    (ht : ∀ t ∈ st.tasks, t.id ≠ tid)
    (hm : ∀ m ∈ st.milestones, m.id ≠ mid) :
    get_person st pid = .error .notFound ∧
    get_task st tid = .error .notFound ∧
    get_milestone st mid = .error .notFound := by
  refine ⟨?_, ?_, ?_⟩
  · have : st.persons.find? (fun p => p.id == pid) = none := by
      rw [List.find?_eq_none]
      intro p hpmem
      simpa using hp p hpmem
    simp [get_person, this]
  · have : st.tasks.find? (fun t => t.id == tid) = none := by
      rw [List.find?_eq_none]
      intro t htmem
      simpa using ht t htmem
    simp [get_task, this]
  · have : st.milestones.find? (fun m => m.id == mid) = none := by
      rw [List.find?_eq_none]
      intro m hmmem
      simpa using hm m hmmem
    simp [get_milestone, this]

/-- Witness for C4 on the empty database. -/
theorem c4_witness :
    (∀ p ∈ DB.empty.persons, p.id ≠ 7) ∧
    (∀ t ∈ DB.empty.tasks, t.id ≠ 7) ∧
    (∀ m ∈ DB.empty.milestones, m.id ≠ 7) ∧
    (get_person DB.empty 7 = .error .notFound ∧
     get_task DB.empty 7 = .error .notFound ∧
     get_milestone DB.empty 7 = .error .notFound) :=
  ⟨by simp [DB.empty], by simp [DB.empty], by simp [DB.empty],
   c4_get_missing_is_notFound DB.empty 7 7 7
     (by simp [DB.empty]) (by simp [DB.empty]) (by simp [DB.empty])⟩

/-- **C10.** In `get_tasks_by_milestone` a status or priority filter supplied
as the empty string (the falsy string) is silently treated as absent: the
call is equal to the call with no filter, so the value is neither validated
against its enumeration nor applied as a filter. -/
theorem c10_falsy_filters_ignored
    (st : DB) (mid : Nat) (status priority : Option String) (sort_by : String) :
    get_tasks_by_milestone st mid (some "") priority sort_by
      = get_tasks_by_milestone st mid none priority sort_by ∧
    get_tasks_by_milestone st mid status (some "") sort_by
      = get_tasks_by_milestone st mid status none sort_by := by
  constructor <;> simp [get_tasks_by_milestone]

/-- A small populated database used to instantiate witnesses: two persons,
one milestone, two tasks (task 1 assigned to person 1 and milestone 1,
task 2 assigned to person 2 with no milestone). -/
def wDB : DB :=
  ⟨[⟨1, "A", "a@b.co", none⟩, ⟨2, "B", "b@b.co", none⟩],
   [⟨1, "M"⟩],
   [⟨1, "T1", "", "ToDo", "High", "2025-01-01", "2025-01-02", 1, some 1⟩,
    ⟨2, "T2", "", "Done", "Low", "2025-01-01", "2025-01-02", 2, none⟩],
   3, 2, 3⟩

/-- `wDB` after `delete_person(1)`. -/
def wDBdp : DB :=
  ⟨[⟨2, "B", "b@b.co", none⟩],
   [⟨1, "M"⟩],
   [⟨2, "T2", "", "Done", "Low", "2025-01-01", "2025-01-02", 2, none⟩],
   3, 2, 3⟩

/-- `wDB` after `delete_milestone(1)`. -/
def wDBdm : DB :=
  ⟨[⟨1, "A", "a@b.co", none⟩, ⟨2, "B", "b@b.co", none⟩],
   [],
   [⟨1, "T1", "", "ToDo", "High", "2025-01-01", "2025-01-02", 1, none⟩,
    ⟨2, "T2", "", "Done", "Low", "2025-01-01", "2025-01-02", 2, none⟩],
   3, 2, 3⟩

/-- **C3.** Referential-integrity cleanup on delete.  After a successful
`delete_person(pid)` no remaining task references `pid` while every task not
referencing `pid` survives; after a successful `delete_milestone(mid)` the
task count is unchanged, every task that referenced `mid` remains with its
`milestone_id` cleared to null, and every other task is untouched. -/
theorem c3_delete_referential_cleanup
    (st st₁ st₂ : DB) (pid mid : Nat)
    (hdp : delete_person st pid = (.ok (), st₁))
    (hdm : delete_milestone st mid = (.ok (), st₂)) :
    ((∀ t ∈ st₁.tasks, t.person_id ≠ pid) ∧
     (∀ t ∈ st.tasks, t.person_id ≠ pid → t ∈ st₁.tasks)) ∧
    (st₂.tasks.length = st.tasks.length ∧
     (∀ t ∈ st.tasks, t.milestone_id = some mid →
        { t with milestone_id := none } ∈ st₂.tasks) ∧
     (∀ t ∈ st.tasks, t.milestone_id ≠ some mid → t ∈ st₂.tasks)) := by
  unfold delete_person at hdp
  unfold delete_milestone at hdm
  split at hdp
  case isFalse => exact absurd (congrArg Prod.fst hdp) (by simp)
  case isTrue =>
    split at hdm
    case isFalse => exact absurd (congrArg Prod.fst hdm) (by simp)
    case isTrue =>
      have h1 : st₁ = { st with persons := st.persons.filter (fun p => p.id != pid),
                                tasks := st.tasks.filter (fun t => t.person_id != pid) } :=
        (congrArg Prod.snd hdp).symm
      have h2 : st₂ = { st with milestones := st.milestones.filter (fun m => m.id != mid),
                                tasks := st.tasks.map (fun t =>
                                  if t.milestone_id == some mid
                                  then { t with milestone_id := none } else t) } :=
        (congrArg Prod.snd hdm).symm
      subst h1 h2
      refine ⟨⟨?_, ?_⟩, ?_, ?_, ?_⟩
      · intro t ht
        have := List.of_mem_filter ht
        simpa using this
      · intro t ht hne
        exact List.mem_filter.mpr ⟨ht, by simpa using hne⟩
      · simp
      · intro t ht hmid
        have : ({ t with milestone_id := none } : TaskRow) =
            (fun t => if t.milestone_id == some mid
                      then { t with milestone_id := none } else t) t := by
          simp [hmid]
        rw [this]
        exact List.mem_map_of_mem _ ht
      · intro t ht hne
        have : t = (fun t => if t.milestone_id == some mid
                             then { t with milestone_id := none } else t) t := by
          simp [hne]
        rw [this]
        exact List.mem_map_of_mem _ ht

/-- Witness for C3: deleting person 1 from `wDB` keeps task 2 (whose
`person_id` is 2); deleting milestone 1 keeps task 1 with its milestone
cleared. -/
theorem c3_witness :
    delete_person wDB 1 = (.ok (), wDBdp) ∧
    delete_milestone wDB 1 = (.ok (), wDBdm) ∧
    (⟨2, "T2", "", "Done", "Low", "2025-01-01", "2025-01-02", 2, none⟩ : TaskRow)
      ∈ wDBdp.tasks ∧
    (⟨1, "T1", "", "ToDo", "High", "2025-01-01", "2025-01-02", 1, none⟩ : TaskRow)
      ∈ wDBdm.tasks :=
  ⟨by decide, by decide,
   (c3_delete_referential_cleanup wDB wDBdp wDBdm 1 1 (by decide) (by decide)).1.2
     ⟨2, "T2", "", "Done", "Low", "2025-01-01", "2025-01-02", 2, none⟩
     (by decide) (by decide),
   ((c3_delete_referential_cleanup wDB wDBdp wDBdm 1 1 (by decide) (by decide)).2.2.1
     ⟨1, "T1", "", "ToDo", "High", "2025-01-01", "2025-01-02", 1, some 1⟩
     (by decide) (by decide))⟩

/-- **C9.** Email uniqueness surfaces as a conflict: in a state holding
exactly one person with email `e`, a further `add_person` with the same
email (passing format validation) fails with the `ConflictError` kind, the
state is unchanged, and exactly one row with email `e` exists afterward. -/
theorem c9_duplicate_email_conflict
    (st : DB) (name e : String) (role : Option String)
    (hfmt : emailFormatOk e = true)
    (hone : st.persons.countP (fun p => p.email == e) = 1) :
    add_person st name e role = (.error .conflictError, st) ∧
    (add_person st name e role).2.persons.countP (fun p => p.email == e) = 1 := by
  have hany : st.persons.any (fun p => p.email == e) = true := by
    rw [List.any_eq_true]
    have : 0 < st.persons.countP (fun p => p.email == e) := by omega
    obtain ⟨a, ha, hpa⟩ := List.countP_pos_iff.mp this
    exact ⟨a, ha, hpa⟩
  have heq : add_person st name e role = (.error .conflictError, st) := by
    unfold add_person
    rw [hfmt, hany]
    rfl
  exact ⟨heq, by rw [heq]; exact hone⟩

/-- Witness for C9: adding a second person with email `a@b.co` to `wDB`. -/
theorem c9_witness :
    emailFormatOk "a@b.co" = true ∧
    wDB.persons.countP (fun p => p.email == "a@b.co") = 1 ∧
    (add_person wDB "A2" "a@b.co" none = (.error .conflictError, wDB) ∧
     (add_person wDB "A2" "a@b.co" none).2.persons.countP
       (fun p => p.email == "a@b.co") = 1) :=
  ⟨by decide, by decide,
   c9_duplicate_email_conflict wDB "A2" "a@b.co" none (by decide) (by decide)⟩

/-! ### Helper lemmas on the sentinel merge and on update success -/

theorem strOr_falsy (new : Option String) (old : String)
    (h : optStrTruthy new = false) : strOr new old = old := by
  cases new with
  | none => rfl
  | some s =>
    have hs : s = "" := by simpa [optStrTruthy] using h
    simp [strOr, hs]

theorem strOr_changed (new : Option String) (old : String)
    (h : strOr new old ≠ old) : optStrTruthy new = true := by
  by_contra hc
  exact h (strOr_falsy new old (by simpa using hc))

theorem roleOr_falsy (new : Option String) (old : Option String)
    (h : optStrTruthy new = false) : roleOr new old = old := by
  cases new with
  | none => rfl
  | some s =>
    have hs : s = "" := by simpa [optStrTruthy] using h
    simp [roleOr, hs]

theorem roleOr_changed (new : Option String) (old : Option String)
    (h : roleOr new old ≠ old) : optStrTruthy new = true := by
  by_contra hc
  exact h (roleOr_falsy new old (by simpa using hc))

theorem natOr_falsy (new : Option Nat) (old : Nat)
    (h : optNatTruthy new = false) : natOr new old = old := by
  cases new with
  | none => rfl
  | some n =>
    have hn : n = 0 := by simpa [optNatTruthy] using h
    simp [natOr, hn]

theorem natOr_changed (new : Option Nat) (old : Nat)
    (h : natOr new old ≠ old) : optNatTruthy new = true := by
  by_contra hc
  exact h (natOr_falsy new old (by simpa using hc))

/-- Inversion of a successful `get_person`. -/
theorem get_person_ok_inv (st : DB) (pid : Nat) (p0 : PersonRow)
    (h0 : get_person st pid = .ok p0) :
    p0 ∈ st.persons ∧ (p0.id == pid) = true := by
  unfold get_person at h0
  cases hf : st.persons.find? (fun p => p.id == pid) with
  | none => rw [hf] at h0; exact absurd h0 (by simp)
  | some r =>
    rw [hf] at h0
    cases h0
    have h1 := List.mem_of_find?_eq_some hf
    have h2 := List.find?_some hf
    exact ⟨h1, h2⟩

/-- Inversion of a successful `get_task`. -/
theorem get_task_ok_inv (st : DB) (tid : Nat) (t0 : TaskRow)
    (h0 : get_task st tid = .ok t0) :
    t0 ∈ st.tasks ∧ (t0.id == tid) = true := by
  unfold get_task at h0
  cases hf : st.tasks.find? (fun t => t.id == tid) with
  | none => rw [hf] at h0; exact absurd h0 (by simp)
  | some r =>
    rw [hf] at h0
    cases h0
    have h1 := List.mem_of_find?_eq_some hf
    have h2 := List.find?_some hf
    exact ⟨h1, h2⟩

/-- A successful `update_person` returns exactly the sentinel-merged record
and stores it in place of the old row. -/
theorem update_person_ok (st stp : DB) (pid : Nat) (name email role : Option String)
    (p0 p : PersonRow)
    (h0 : get_person st pid = .ok p0)
    (h : update_person st pid name email role = (.ok p, stp)) :
    p = ⟨pid, strOr name p0.name, strOr email p0.email, roleOr role p0.role⟩ ∧
    stp = { st with persons := st.persons.map (fun x => if x.id == pid then p else x) } := by
  unfold update_person at h
  rw [h0] at h
  simp only at h
  split at h
  · split at h
    · exact absurd (congrArg Prod.fst h) (by simp)
    · have hps : p = ⟨pid, strOr name p0.name, strOr email p0.email, roleOr role p0.role⟩ := by
        have := congrArg Prod.fst h
        simpa using this.symm
      refine ⟨hps, ?_⟩
      have h2 := congrArg Prod.snd h
      simp only at h2
      rw [← h2, hps]
  · exact absurd (congrArg Prod.fst h) (by simp)

/-- A successful `update_task` returns exactly the merged record (sentinel
merge on every field except `milestone_id`, which uses the `is not None`
rule) and stores it in place of the old row. -/
theorem update_task_ok (st stt : DB) (tid : Nat)
    (title description status priority start_date due_date : Option String)
    (person_id milestone_id : Option Nat) (t0 t : TaskRow)
    (h0 : get_task st tid = .ok t0)
    (h : update_task st tid title description status priority start_date due_date
           person_id milestone_id = (.ok t, stt)) :
    t = ⟨tid, strOr title t0.title, strOr description t0.description,
         strOr status t0.status, strOr priority t0.priority,
         strOr start_date t0.start_date, strOr due_date t0.due_date,
         natOr person_id t0.person_id,
         (milestoneMerge milestone_id t0.milestone_id)⟩ ∧
    stt = { st with tasks := st.tasks.map (fun x => if x.id == tid then t else x) } := by
  unfold update_task at h
  rw [h0] at h
  simp only at h
  split at h
  · exact absurd (congrArg Prod.fst h) (by simp)
  · split at h
    · exact absurd (congrArg Prod.fst h) (by simp)
    · split at h
      · exact absurd (congrArg Prod.fst h) (by simp)
      · split at h
        · exact absurd (congrArg Prod.fst h) (by simp)
        · split at h
          · exact absurd (congrArg Prod.fst h) (by simp)
          · split at h
            · exact absurd (congrArg Prod.fst h) (by simp)
            · split at h
              · exact absurd (congrArg Prod.fst h) (by simp)
              · have hts : t = ⟨tid, strOr title t0.title, strOr description t0.description,
                    strOr status t0.status, strOr priority t0.priority,
                    strOr start_date t0.start_date, strOr due_date t0.due_date,
                    natOr person_id t0.person_id,
                    (milestoneMerge milestone_id t0.milestone_id)⟩ := by
                  have := congrArg Prod.fst h
                  simpa using this.symm
                refine ⟨hts, ?_⟩
                have h2 := congrArg Prod.snd h
                simp only at h2
                rw [← h2, hts]

/-- **C5, counterexample.** The claim says an `update_task` supplying
`None` for `milestone_id` yields a task with no milestone.  On `wDB`, task 1
has `milestone_id = some 1`; updating it with every argument `None` returns
the task still carrying `some 1`, not the cleared task: the code keeps the
old milestone on `None` (`milestone_id if milestone_id is not None else
task.milestone_id`). -/
theorem c5_counterexample :
    (update_task wDB 1 none none none none none none none none).1
      = .ok ⟨1, "T1", "", "ToDo", "High", "2025-01-01", "2025-01-02", 1, some 1⟩ ∧
    (update_task wDB 1 none none none none none none none none).1
      ≠ .ok ⟨1, "T1", "", "ToDo", "High", "2025-01-01", "2025-01-02", 1, none⟩ := by
  constructor <;> decide

/-- **C5, amended.** Supplying `None`/absent for `milestone_id` in
`update_task` keeps the prior milestone reference unchanged (the
`is not None` test makes `None` mean "keep", exactly like the other fields'
falsy sentinel; the milestone reference cannot be cleared through
`update_task`).  On success the returned and stored task carries the old
task's `milestone_id`. -/
theorem c5_amended_none_keeps_milestone
    (st st' : DB) (tid : Nat)
    (title description status priority start_date due_date : Option String)
    (person_id : Option Nat) (t0 t : TaskRow)
    (h0 : get_task st tid = .ok t0)
    (h : update_task st tid title description status priority start_date due_date
           person_id none = (.ok t, st')) :
    t.milestone_id = t0.milestone_id ∧ t ∈ st'.tasks := by
  obtain ⟨ht0mem, ht0id⟩ := get_task_ok_inv st tid t0 h0
  obtain ⟨hteq, htst⟩ := update_task_ok st st' tid title description status priority
    start_date due_date person_id none t0 t h0 h
  subst hteq htst
  refine ⟨rfl, ?_⟩
  show _ ∈ st.tasks.map _
  have hmem := List.mem_map_of_mem
    (fun x => if x.id == tid then
      (⟨tid, strOr title t0.title, strOr description t0.description,
        strOr status t0.status, strOr priority t0.priority,
        strOr start_date t0.start_date, strOr due_date t0.due_date,
        natOr person_id t0.person_id, milestoneMerge none t0.milestone_id⟩ : TaskRow)
      else x) ht0mem
  simpa [ht0id] using hmem

/-- Witness for C5's amended theorem at the concrete `wDB` update. -/
theorem c5_witness :
    get_task wDB 1
      = .ok ⟨1, "T1", "", "ToDo", "High", "2025-01-01", "2025-01-02", 1, some 1⟩ ∧
    update_task wDB 1 (some "T1b") none none none none none none none
      = (.ok ⟨1, "T1b", "", "ToDo", "High", "2025-01-01", "2025-01-02", 1, some 1⟩,
         ⟨[⟨1, "A", "a@b.co", none⟩, ⟨2, "B", "b@b.co", none⟩],
          [⟨1, "M"⟩],
          [⟨1, "T1b", "", "ToDo", "High", "2025-01-01", "2025-01-02", 1, some 1⟩,
           ⟨2, "T2", "", "Done", "Low", "2025-01-01", "2025-01-02", 2, none⟩],
          3, 2, 3⟩) ∧
    ((⟨1, "T1b", "", "ToDo", "High", "2025-01-01", "2025-01-02", 1, some 1⟩ :
        TaskRow).milestone_id
      = (⟨1, "T1", "", "ToDo", "High", "2025-01-01", "2025-01-02", 1, some 1⟩ :
        TaskRow).milestone_id ∧
     (⟨1, "T1b", "", "ToDo", "High", "2025-01-01", "2025-01-02", 1, some 1⟩ : TaskRow)
       ∈ (⟨[⟨1, "A", "a@b.co", none⟩, ⟨2, "B", "b@b.co", none⟩],
           [⟨1, "M"⟩],
           [⟨1, "T1b", "", "ToDo", "High", "2025-01-01", "2025-01-02", 1, some 1⟩,
            ⟨2, "T2", "", "Done", "Low", "2025-01-01", "2025-01-02", 2, none⟩],
           3, 2, 3⟩ : DB).tasks) :=
  ⟨by decide, by decide,
   c5_amended_none_keeps_milestone wDB _ 1 (some "T1b") none none none none none none
     _ _ (by decide) (by decide)⟩

/-- **C6, counterexample.** The claim says an empty `name`/`title` fails
validation before any write.  In fact `add_person` with an empty name (and a
fresh valid email) succeeds and persists the row, and `add_task` with an
empty title (and otherwise valid fields) succeeds and persists the row. -/
theorem c6_counterexample :
    add_person DB.empty "" "e@x.co" none
      = (.ok ⟨1, "", "e@x.co", none⟩, ⟨[⟨1, "", "e@x.co", none⟩], [], [], 2, 1, 1⟩) ∧
    (add_task wDB "" "" "ToDo" "High" "2025-01-01" "2025-01-02" 1 none).1
      = .ok ⟨3, "", "", "ToDo", "High", "2025-01-01", "2025-01-02", 1, none⟩ ∧
    (⟨3, "", "", "ToDo", "High", "2025-01-01", "2025-01-02", 1, none⟩ : TaskRow)
      ∈ (add_task wDB "" "" "ToDo" "High" "2025-01-01" "2025-01-02" 1 none).2.tasks := by
  refine ⟨by decide, by decide, by decide⟩

/-- **C6, amended.** Neither `add_person` nor `add_task` checks `name`/`title`
for non-emptiness (the schema's NOT NULL only bars a true null): with every
other input valid, an empty name/title is accepted and a row with the empty
name/title is persisted. -/
theorem c6_amended_empty_name_title_accepted
    (st : DB) (email : String) (role : Option String)
    (description status priority start_date due_date : String) (person_id : Nat)
    (hfmt : emailFormatOk email = true)
    (hnodup : ∀ p ∈ st.persons, p.email ≠ email)
    (hst : status ∈ VALID_STATUSES) (hpr : priority ∈ VALID_PRIORITIES)
    (hsd : dateOk start_date = true) (hdd : dateOk due_date = true)
    (hperson : ∃ p ∈ st.persons, p.id = person_id) :
    (add_person st "" email role).1 = .ok ⟨st.nextPersonId, "", email, role⟩ ∧
    (⟨st.nextPersonId, "", email, role⟩ : PersonRow)
      ∈ (add_person st "" email role).2.persons ∧
    (add_task st "" description status priority start_date due_date person_id none).1
      = .ok ⟨st.nextTaskId, "", description, status, priority, start_date,
             due_date, person_id, none⟩ ∧
    (⟨st.nextTaskId, "", description, status, priority, start_date, due_date,
      person_id, none⟩ : TaskRow)
      ∈ (add_task st "" description status priority start_date due_date
           person_id none).2.tasks := by
  have hnoc : st.persons.any (fun p => p.email == email) = false := by
    rw [Bool.eq_false_iff]
    intro hc
    obtain ⟨p, hp, hpe⟩ := List.any_eq_true.mp hc
    exact hnodup p hp (by simpa using hpe)
  have hstc : VALID_STATUSES.contains status = true := by simpa using hst
  have hprc : VALID_PRIORITIES.contains priority = true := by simpa using hpr
  have hpid : st.persons.any (fun p => p.id == person_id) = true := by
    rw [List.any_eq_true]
    obtain ⟨p, hp, hpe⟩ := hperson
    exact ⟨p, hp, by simpa using hpe⟩
  constructor
  · unfold add_person; rw [hfmt, hnoc]; rfl
  constructor
  · unfold add_person; rw [hfmt, hnoc]; simp
  constructor
  · unfold add_task
    rw [hstc, hprc, hsd, hdd, hpid]
    simp [personFkOk, milestoneFkOk, milestoneMissing, hpid]
  · unfold add_task
    rw [hstc, hprc, hsd, hdd, hpid]
    simp [personFkOk, milestoneFkOk, milestoneMissing, hpid]

/-- Witness for C6's amended theorem on `wDB` with a fresh email. -/
theorem c6_witness :
    emailFormatOk "c@c.co" = true ∧
    (∀ p ∈ wDB.persons, p.email ≠ "c@c.co") ∧
    ("ToDo" : String) ∈ VALID_STATUSES ∧ ("High" : String) ∈ VALID_PRIORITIES ∧
    dateOk "2025-01-01" = true ∧ dateOk "2025-01-02" = true ∧
    (∃ p ∈ wDB.persons, p.id = 1) ∧
    ((add_person wDB "" "c@c.co" none).1 = .ok ⟨3, "", "c@c.co", none⟩ ∧
     (⟨3, "", "c@c.co", none⟩ : PersonRow) ∈ (add_person wDB "" "c@c.co" none).2.persons ∧
     (add_task wDB "" "d" "ToDo" "High" "2025-01-01" "2025-01-02" 1 none).1
       = .ok ⟨3, "", "d", "ToDo", "High", "2025-01-01", "2025-01-02", 1, none⟩ ∧
     (⟨3, "", "d", "ToDo", "High", "2025-01-01", "2025-01-02", 1, none⟩ : TaskRow)
       ∈ (add_task wDB "" "d" "ToDo" "High" "2025-01-01" "2025-01-02" 1 none).2.tasks) :=
  ⟨by decide, by decide, by decide, by decide, by decide, by decide,
   ⟨⟨1, "A", "a@b.co", none⟩, by decide, rfl⟩,
   c6_amended_empty_name_title_accepted wDB "c@c.co" none "d" "ToDo" "High"
     "2025-01-01" "2025-01-02" 1 (by decide) (by decide) (by decide) (by decide)
     (by decide) (by decide) ⟨⟨1, "A", "a@b.co", none⟩, by decide, rfl⟩⟩

/-- **C7.** Partial-update sentinel semantics for `update_person` and
`update_task` (`milestone_id` excepted): on success, every field supplied as
a Python-falsy value is left equal to its prior stored value, a field's
value differs from the prior one only when the caller supplied a truthy new
value, and the returned record is the stored one. -/
theorem c7_partial_update_sentinel
    (st stp stt : DB) (pid tid : Nat)
    (name email role title description status priority start_date due_date : Option String)
    (person_id milestone_id : Option Nat)
    (p0 p : PersonRow) (t0 t : TaskRow)
    (hp0 : get_person st pid = .ok p0)
    (hp : update_person st pid name email role = (.ok p, stp))
    (ht0 : get_task st tid = .ok t0)
    (ht : update_task st tid title description status priority start_date due_date
            person_id milestone_id = (.ok t, stt)) :
    ((optStrTruthy name = false → p.name = p0.name) ∧
     (optStrTruthy email = false → p.email = p0.email) ∧
     (optStrTruthy role = false → p.role = p0.role) ∧
     (p.name ≠ p0.name → optStrTruthy name = true) ∧
     (p.email ≠ p0.email → optStrTruthy email = true) ∧
     (p.role ≠ p0.role → optStrTruthy role = true) ∧
     p ∈ stp.persons) ∧
    ((optStrTruthy title = false → t.title = t0.title) ∧
     (optStrTruthy description = false → t.description = t0.description) ∧
     (optStrTruthy status = false → t.status = t0.status) ∧
     (optStrTruthy priority = false → t.priority = t0.priority) ∧
     (optStrTruthy start_date = false → t.start_date = t0.start_date) ∧
     (optStrTruthy due_date = false → t.due_date = t0.due_date) ∧
     (optNatTruthy person_id = false → t.person_id = t0.person_id) ∧
     (t.title ≠ t0.title → optStrTruthy title = true) ∧
     (t.description ≠ t0.description → optStrTruthy description = true) ∧
     (t.status ≠ t0.status → optStrTruthy status = true) ∧
     (t.priority ≠ t0.priority → optStrTruthy priority = true) ∧
     (t.start_date ≠ t0.start_date → optStrTruthy start_date = true) ∧
     (t.due_date ≠ t0.due_date → optStrTruthy due_date = true) ∧
     (t.person_id ≠ t0.person_id → optNatTruthy person_id = true) ∧
     t ∈ stt.tasks) := by
  obtain ⟨hp0mem, hp0id⟩ := get_person_ok_inv st pid p0 hp0
  obtain ⟨ht0mem, ht0id⟩ := get_task_ok_inv st tid t0 ht0
  obtain ⟨hpeq, hpst⟩ := update_person_ok st stp pid name email role p0 p hp0 hp
  obtain ⟨hteq, htst⟩ := update_task_ok st stt tid title description status priority
    start_date due_date person_id milestone_id t0 t ht0 ht
  subst hpeq htst hpst hteq
  refine ⟨⟨?_, ?_, ?_, ?_, ?_, ?_, ?_⟩,
          ?_, ?_, ?_, ?_, ?_, ?_, ?_, ?_, ?_, ?_, ?_, ?_, ?_, ?_, ?_⟩
  · exact fun h => strOr_falsy name p0.name h
  · exact fun h => strOr_falsy email p0.email h
  · exact fun h => roleOr_falsy role p0.role h
  · exact fun h => strOr_changed name p0.name h
  · exact fun h => strOr_changed email p0.email h
  · exact fun h => roleOr_changed role p0.role h
  · show _ ∈ st.persons.map _
    have hmem := List.mem_map_of_mem
      (fun x => if x.id == pid then
        (⟨pid, strOr name p0.name, strOr email p0.email, roleOr role p0.role⟩ : PersonRow)
        else x) hp0mem
    simpa [hp0id] using hmem
  · exact fun h => strOr_falsy title t0.title h
  · exact fun h => strOr_falsy description t0.description h
  · exact fun h => strOr_falsy status t0.status h
  · exact fun h => strOr_falsy priority t0.priority h
  · exact fun h => strOr_falsy start_date t0.start_date h
  · exact fun h => strOr_falsy due_date t0.due_date h
  · exact fun h => natOr_falsy person_id t0.person_id h
  · exact fun h => strOr_changed title t0.title h
  · exact fun h => strOr_changed description t0.description h
  · exact fun h => strOr_changed status t0.status h
  · exact fun h => strOr_changed priority t0.priority h
  · exact fun h => strOr_changed start_date t0.start_date h
  · exact fun h => strOr_changed due_date t0.due_date h
  · exact fun h => natOr_changed person_id t0.person_id h
  · show _ ∈ st.tasks.map _
    have hmem := List.mem_map_of_mem
      (fun x => if x.id == tid then
        (⟨tid, strOr title t0.title, strOr description t0.description,
          strOr status t0.status, strOr priority t0.priority,
          strOr start_date t0.start_date, strOr due_date t0.due_date,
          natOr person_id t0.person_id,
          (milestoneMerge milestone_id t0.milestone_id)⟩ : TaskRow)
        else x) ht0mem
    simpa [ht0id] using hmem

/-- Looking up a freshly appended person row by its id finds exactly it. -/
theorem get_person_append_fresh (st : DB) (row : PersonRow) (k : Nat)
    (hfresh : ∀ q ∈ st.persons, q.id ≠ row.id) :
    get_person { st with persons := st.persons ++ [row], nextPersonId := k }
      row.id = .ok row := by
  have hnone : st.persons.find? (fun q => q.id == row.id) = none := by
    rw [List.find?_eq_none]
    intro q hq
    simpa using hfresh q hq
  simp only [get_person]
  rw [List.find?_append, hnone]
  simp

/-- Looking up a freshly appended task row by its id finds exactly it. -/
theorem get_task_append_fresh (st : DB) (row : TaskRow) (k : Nat)
    (hfresh : ∀ q ∈ st.tasks, q.id ≠ row.id) :
    get_task { st with tasks := st.tasks ++ [row], nextTaskId := k }
      row.id = .ok row := by
  have hnone : st.tasks.find? (fun q => q.id == row.id) = none := by
    rw [List.find?_eq_none]
    intro q hq
    simpa using hfresh q hq
  simp only [get_task]
  rw [List.find?_append, hnone]
  simp

/-- Looking up a freshly appended milestone row by its id finds exactly it. -/
theorem get_milestone_append_fresh (st : DB) (row : MilestoneRow) (k : Nat)
    (hfresh : ∀ q ∈ st.milestones, q.id ≠ row.id) :
    get_milestone { st with milestones := st.milestones ++ [row], nextMilestoneId := k }
      row.id = .ok row := by
  have hnone : st.milestones.find? (fun q => q.id == row.id) = none := by
    rw [List.find?_eq_none]
    intro q hq
    simpa using hfresh q hq
  simp only [get_milestone]
  rw [List.find?_append, hnone]
  simp

/-- **C2.** Round trip for every entity kind: on a well-formed state, a
successful `add_person`/`add_task`/`add_milestone` returns exactly the
record built from the supplied fields plus the storage-assigned id, and
`get` with that id on the resulting state returns the very same record. -/
theorem c2_add_get_round_trip
    (st stp stt stm : DB)
    (name email : String) (role : Option String)
    (title description status priority start_date due_date : String)
    (person_id : Nat) (milestone_id : Option Nat) (mname : String)
    (p : PersonRow) (t : TaskRow) (m : MilestoneRow)
    (hwf : dbWf st = true)
    (hp : add_person st name email role = (.ok p, stp))
    (ht : add_task st title description status priority start_date due_date
            person_id milestone_id = (.ok t, stt))
    (hm : add_milestone st mname = (.ok m, stm)) :
    (p = ⟨st.nextPersonId, name, email, role⟩ ∧ get_person stp p.id = .ok p) ∧
    (t = ⟨st.nextTaskId, title, description, status, priority, start_date,
          due_date, person_id, milestone_id⟩ ∧ get_task stt t.id = .ok t) ∧
    (m = ⟨st.nextMilestoneId, mname⟩ ∧ get_milestone stm m.id = .ok m) := by
  simp only [dbWf, Bool.and_eq_true, List.all_eq_true, decide_eq_true_eq] at hwf
  obtain ⟨⟨hwp, hwm⟩, hwt⟩ := hwf
  refine ⟨?_, ?_, ?_⟩
  · unfold add_person at hp
    split at hp
    · split at hp
      · exact absurd (congrArg Prod.fst hp) (by simp)
      · have hpeq : p = ⟨st.nextPersonId, name, email, role⟩ := by
          have := congrArg Prod.fst hp
          simpa using this.symm
        have hstp : stp = { st with
            persons := st.persons ++ [(⟨st.nextPersonId, name, email, role⟩ : PersonRow)],
            nextPersonId := st.nextPersonId + 1 } := by
          have h2 := congrArg Prod.snd hp
          simp only at h2
          rw [← h2]
        refine ⟨hpeq, ?_⟩
        rw [hstp, hpeq]
        exact get_person_append_fresh st ⟨st.nextPersonId, name, email, role⟩ _
          (fun q hq => Nat.ne_of_lt (hwp q hq))
    · exact absurd (congrArg Prod.fst hp) (by simp)
  · unfold add_task at ht
    split at ht
    · exact absurd (congrArg Prod.fst ht) (by simp)
    · split at ht
      · exact absurd (congrArg Prod.fst ht) (by simp)
      · split at ht
        · exact absurd (congrArg Prod.fst ht) (by simp)
        · split at ht
          · exact absurd (congrArg Prod.fst ht) (by simp)
          · split at ht
            · exact absurd (congrArg Prod.fst ht) (by simp)
            · split at ht
              · exact absurd (congrArg Prod.fst ht) (by simp)
              · split at ht
                · exact absurd (congrArg Prod.fst ht) (by simp)
                · have hteq : t = ⟨st.nextTaskId, title, description, status,
                      priority, start_date, due_date, person_id, milestone_id⟩ := by
                    have := congrArg Prod.fst ht
                    simpa using this.symm
                  have hstt : stt = { st with
                      tasks := st.tasks ++ [(⟨st.nextTaskId, title, description, status,
                        priority, start_date, due_date, person_id, milestone_id⟩ : TaskRow)],
                      nextTaskId := st.nextTaskId + 1 } := by
                    have h2 := congrArg Prod.snd ht
                    simp only at h2
                    rw [← h2]
                  refine ⟨hteq, ?_⟩
                  rw [hstt, hteq]
                  exact get_task_append_fresh st ⟨st.nextTaskId, title, description,
                    status, priority, start_date, due_date, person_id, milestone_id⟩ _
                    (fun q hq => Nat.ne_of_lt (hwt q hq))
  · unfold add_milestone at hm
    have hmeq : m = ⟨st.nextMilestoneId, mname⟩ := by
      have := congrArg Prod.fst hm
      simpa using this.symm
    have hstm : stm = { st with
        milestones := st.milestones ++ [(⟨st.nextMilestoneId, mname⟩ : MilestoneRow)],
        nextMilestoneId := st.nextMilestoneId + 1 } := by
      have h2 := congrArg Prod.snd hm
      simp only at h2
      rw [← h2]
    refine ⟨hmeq, ?_⟩
    rw [hstm, hmeq]
    exact get_milestone_append_fresh st ⟨st.nextMilestoneId, mname⟩ _
      (fun q hq => Nat.ne_of_lt (hwm q hq))

/-- `wDB` after `add_person("C", "c@c.co", None)`. -/
def wDBap : DB :=
  ⟨[⟨1, "A", "a@b.co", none⟩, ⟨2, "B", "b@b.co", none⟩, ⟨3, "C", "c@c.co", none⟩],
   [⟨1, "M"⟩],
   [⟨1, "T1", "", "ToDo", "High", "2025-01-01", "2025-01-02", 1, some 1⟩,
    ⟨2, "T2", "", "Done", "Low", "2025-01-01", "2025-01-02", 2, none⟩],
   4, 2, 3⟩

/-- `wDB` after `add_task("T3", "d", "Done", "Low", ..., 2, 1)`. -/
def wDBat : DB :=
  ⟨[⟨1, "A", "a@b.co", none⟩, ⟨2, "B", "b@b.co", none⟩],
   [⟨1, "M"⟩],
   [⟨1, "T1", "", "ToDo", "High", "2025-01-01", "2025-01-02", 1, some 1⟩,
    ⟨2, "T2", "", "Done", "Low", "2025-01-01", "2025-01-02", 2, none⟩,
    ⟨3, "T3", "d", "Done", "Low", "2025-02-01", "2025-02-02", 2, some 1⟩],
   3, 2, 4⟩

/-- `wDB` after `add_milestone("M2")`. -/
def wDBam : DB :=
  ⟨[⟨1, "A", "a@b.co", none⟩, ⟨2, "B", "b@b.co", none⟩],
   [⟨1, "M"⟩, ⟨2, "M2"⟩],
   [⟨1, "T1", "", "ToDo", "High", "2025-01-01", "2025-01-02", 1, some 1⟩,
    ⟨2, "T2", "", "Done", "Low", "2025-01-01", "2025-01-02", 2, none⟩],
   3, 3, 3⟩

/-- Witness for C2: concrete adds on `wDB`. -/
theorem c2_witness :
    dbWf wDB = true ∧
    add_person wDB "C" "c@c.co" none = (.ok ⟨3, "C", "c@c.co", none⟩, wDBap) ∧
    add_task wDB "T3" "d" "Done" "Low" "2025-02-01" "2025-02-02" 2 (some 1)
      = (.ok ⟨3, "T3", "d", "Done", "Low", "2025-02-01", "2025-02-02", 2, some 1⟩, wDBat) ∧
    add_milestone wDB "M2" = (.ok ⟨2, "M2"⟩, wDBam) ∧
    (((⟨3, "C", "c@c.co", none⟩ : PersonRow) = ⟨wDB.nextPersonId, "C", "c@c.co", none⟩ ∧
      get_person wDBap (3 : Nat) = .ok ⟨3, "C", "c@c.co", none⟩) ∧
     ((⟨3, "T3", "d", "Done", "Low", "2025-02-01", "2025-02-02", 2, some 1⟩ : TaskRow)
        = ⟨wDB.nextTaskId, "T3", "d", "Done", "Low", "2025-02-01", "2025-02-02", 2, some 1⟩ ∧
      get_task wDBat (3 : Nat)
        = .ok ⟨3, "T3", "d", "Done", "Low", "2025-02-01", "2025-02-02", 2, some 1⟩) ∧
     ((⟨2, "M2"⟩ : MilestoneRow) = ⟨wDB.nextMilestoneId, "M2"⟩ ∧
      get_milestone wDBam (2 : Nat) = .ok ⟨2, "M2"⟩)) :=
  ⟨by decide, by decide, by decide, by decide,
   c2_add_get_round_trip wDB wDBap wDBat wDBam "C" "c@c.co" none "T3" "d" "Done"
     "Low" "2025-02-01" "2025-02-02" 2 (some 1) "M2"
     ⟨3, "C", "c@c.co", none⟩
     ⟨3, "T3", "d", "Done", "Low", "2025-02-01", "2025-02-02", 2, some 1⟩
     ⟨2, "M2"⟩ (by decide) (by decide) (by decide) (by decide)⟩

/-! ### The date validator against the spec (C8)

The machinery below evaluates `strptimeYmdOk` symbolically on strings of the
regex-gated shape and compares it with the spec-side notion of a real
calendar date. -/

/-- Every ASCII digit character is one of the ten literals. -/
theorem char_digit_cases (c : Char) (h : c.isDigit = true) :
    c = '0' ∨ c = '1' ∨ c = '2' ∨ c = '3' ∨ c = '4' ∨
    c = '5' ∨ c = '6' ∨ c = '7' ∨ c = '8' ∨ c = '9' := by
  simp only [Char.isDigit, Bool.and_eq_true, decide_eq_true_eq] at h
  obtain ⟨h1, h2⟩ := h
  have h1' : 48 ≤ c.toNat := UInt32.le_toNat_of_le (by norm_num) h1
  have h2' : c.toNat ≤ 57 := UInt32.toNat_le_of_le (by norm_num) h2
  have hofn := Char.ofNat_toNat c
  have hc : c.toNat = 48 ∨ c.toNat = 49 ∨ c.toNat = 50 ∨ c.toNat = 51 ∨
      c.toNat = 52 ∨ c.toNat = 53 ∨ c.toNat = 54 ∨ c.toNat = 55 ∨
      c.toNat = 56 ∨ c.toNat = 57 := by omega
  rcases hc with hc|hc|hc|hc|hc|hc|hc|hc|hc|hc <;> rw [hc] at hofn <;>
    simp [← hofn, Char.ofNat]

/-- Normal form of the month alternation on two digit characters. -/
theorem parseMonth_digits (m1 m2 : Char) (rest : List Char)
    (h1 : m1.isDigit = true) (h2 : m2.isDigit = true) :
    parseMonth (m1 :: m2 :: rest) =
      (if 10 * digitVal m1 + digitVal m2 = 0 then none
       else if 10 * digitVal m1 + digitVal m2 ≤ 12 then
         some (10 * digitVal m1 + digitVal m2, rest)
       else some (digitVal m1, m2 :: rest)) := by
  rcases char_digit_cases m1 h1 with rfl|rfl|rfl|rfl|rfl|rfl|rfl|rfl|rfl|rfl <;>
    rcases char_digit_cases m2 h2 with rfl|rfl|rfl|rfl|rfl|rfl|rfl|rfl|rfl|rfl <;>
    rfl

/-- Normal form of the day alternation on two digit characters. -/
theorem parseDay_digits (d1 d2 : Char) (rest : List Char)
    (h1 : d1.isDigit = true) (h2 : d2.isDigit = true) :
    parseDay (d1 :: d2 :: rest) =
      (if 10 * digitVal d1 + digitVal d2 = 0 then none
       else if 10 * digitVal d1 + digitVal d2 ≤ 31 then
         some (10 * digitVal d1 + digitVal d2, rest)
       else some (digitVal d1, d2 :: rest)) := by
  rcases char_digit_cases d1 h1 with rfl|rfl|rfl|rfl|rfl|rfl|rfl|rfl|rfl|rfl <;>
    rcases char_digit_cases d2 h2 with rfl|rfl|rfl|rfl|rfl|rfl|rfl|rfl|rfl|rfl <;>
    rfl

theorem daysInMonth_bounds (y m : Nat) :
    28 ≤ daysInMonth y m ∧ daysInMonth y m ≤ 31 := by
  unfold daysInMonth
  split
  · split <;> omega
  · split <;> omega

/-- `strptime` on a regex-gated date shape (with arbitrary residue `tail`)
succeeds exactly when the residue is empty and the digits denote an
in-range year/month/day. -/
theorem strptimeYmdOk_shape
    (y1 y2 y3 y4 m1 m2 d1 d2 : Char) (tail : List Char)
    (hy1 : y1.isDigit = true) (hy2 : y2.isDigit = true)
    (hy3 : y3.isDigit = true) (hy4 : y4.isDigit = true)
    (hm1 : m1.isDigit = true) (hm2 : m2.isDigit = true)
    (hd1 : d1.isDigit = true) (hd2 : d2.isDigit = true) :
    (strptimeYmdOk ([y1, y2, y3, y4, '-', m1, m2, '-', d1, d2] ++ tail) = true)
      ↔ (tail = [] ∧
         1 ≤ 1000 * digitVal y1 + 100 * digitVal y2 + 10 * digitVal y3 + digitVal y4 ∧
         1 ≤ 10 * digitVal m1 + digitVal m2 ∧
         10 * digitVal m1 + digitVal m2 ≤ 12 ∧
         1 ≤ 10 * digitVal d1 + digitVal d2 ∧
         10 * digitVal d1 + digitVal d2 ≤
           daysInMonth
             (1000 * digitVal y1 + 100 * digitVal y2 + 10 * digitVal y3 + digitVal y4)
             (10 * digitVal m1 + digitVal m2)) := by
  simp only [strptimeYmdOk, List.cons_append, List.nil_append, hy1, hy2, hy3, hy4,
    Bool.and_self, if_true]
  rw [parseMonth_digits m1 m2 _ hm1 hm2]
  split_ifs with hm0 hm12
  · simp
    omega
  · simp only []
    rw [parseDay_digits d1 d2 _ hd1 hd2]
    split_ifs with hd0 hd31
    · simp
      omega
    · cases tail <;>
        simp [List.isEmpty, Bool.and_eq_true, decide_eq_true_eq] <;> omega
    · have := daysInMonth_bounds
        (1000 * digitVal y1 + 100 * digitVal y2 + 10 * digitVal y3 + digitVal y4)
        (10 * digitVal m1 + digitVal m2)
      simp
      omega
  · rcases char_digit_cases m2 hm2 with rfl|rfl|rfl|rfl|rfl|rfl|rfl|rfl|rfl|rfl <;>
      simp <;> omega

/-- Follows the spec's words ("matches syntactically but does not denote a
real calendar date"): a string of the `YYYY-MM-DD` shape denotes a real
calendar date when its digits read as a year at least 1 (there is no year
zero), a month in 1..12, and a day in range for that month. -/
def specRealCalendarDate : List Char → Bool
  | [y1, y2, y3, y4, '-', m1, m2, '-', d1, d2] =>
    decide (1 ≤ 1000 * digitVal y1 + 100 * digitVal y2 + 10 * digitVal y3 + digitVal y4 ∧
      1 ≤ 10 * digitVal m1 + digitVal m2 ∧
      10 * digitVal m1 + digitVal m2 ≤ 12 ∧
      1 ≤ 10 * digitVal d1 + digitVal d2 ∧
      10 * digitVal d1 + digitVal d2 ≤
        daysInMonth
          (1000 * digitVal y1 + 100 * digitVal y2 + 10 * digitVal y3 + digitVal y4)
          (10 * digitVal m1 + digitVal m2))
  | _ => false

/-- A string accepted by the pattern body has exactly the 10-character
digit shape. -/
theorem dateCoreMatch_inv (l : List Char) (h : dateCoreMatch l = true) :
    ∃ y1 y2 y3 y4 m1 m2 d1 d2,
      l = [y1, y2, y3, y4, '-', m1, m2, '-', d1, d2] ∧
      y1.isDigit = true ∧ y2.isDigit = true ∧ y3.isDigit = true ∧ y4.isDigit = true ∧
      m1.isDigit = true ∧ m2.isDigit = true ∧ d1.isDigit = true ∧ d2.isDigit = true := by
  rcases l with _|⟨y1,_|⟨y2,_|⟨y3,_|⟨y4,_|⟨s1,_|⟨m1,_|⟨m2,_|⟨s2,_|⟨d1,_|⟨d2,_|⟨x,xs⟩⟩⟩⟩⟩⟩⟩⟩⟩⟩⟩ <;>
    try exact Bool.noConfusion h
  simp [dateCoreMatch] at h
  obtain ⟨⟨⟨⟨⟨⟨⟨⟨⟨h1, h2⟩, h3⟩, h4⟩, hs1⟩, h5⟩, h6⟩, hs2⟩, h7⟩, h8⟩ := h
  subst hs1 hs2
  exact ⟨y1, y2, y3, y4, m1, m2, d1, d2, rfl, h1, h2, h3, h4, h5, h6, h7, h8⟩

/-- `strptime` rejects a date shape carrying the trailing newline that
Python's `$` tolerates. -/
theorem strptime_shape_newline_false
    (y1 y2 y3 y4 m1 m2 d1 d2 : Char)
    (hy1 : y1.isDigit = true) (hy2 : y2.isDigit = true)
    (hy3 : y3.isDigit = true) (hy4 : y4.isDigit = true)
    (hm1 : m1.isDigit = true) (hm2 : m2.isDigit = true)
    (hd1 : d1.isDigit = true) (hd2 : d2.isDigit = true) :
    strptimeYmdOk ([y1, y2, y3, y4, '-', m1, m2, '-', d1, d2] ++ ['\n']) = false := by
  rw [Bool.eq_false_iff]
  intro hc
  have := (strptimeYmdOk_shape y1 y2 y3 y4 m1 m2 d1 d2 ['\n']
    hy1 hy2 hy3 hy4 hm1 hm2 hd1 hd2).mp hc
  simp at this

/-- **C8, counterexample.** The claim's trichotomy predicts `InvalidFormat`
whenever the string does not match `^\d{4}-\d{2}-\d{2}$`.  The string
`"2024-01-02\n"` does not match that pattern (it has an 11th character),
yet the validator fails with the `InvalidValue` kind: Python's `$` also
matches just before a trailing newline, so the format gate passes and
`strptime` is what rejects the string. -/
theorem c8_counterexample :
    dateCoreMatch "2024-01-02\n".data = false ∧
    validate_date "2024-01-02\n" = .error .invalidValue ∧
    validate_date "2024-01-02\n" ≠ .error .invalidFormat := by
  refine ⟨by decide, by decide, by decide⟩

/-- **C8, amended.** The date validator is a total check with two failure
kinds, where the format gate has Python's `re.match` semantics (the body
`^\d{4}-\d{2}-\d{2}$` also accepts a single trailing newline): for every
input string it fails `InvalidFormat` when the string does not match the
pattern under those semantics; it fails `InvalidValue` when the string
matches only via the trailing newline, or matches the body exactly but does
not denote a real calendar date (e.g. 2024-02-30, or year 0000); and it
succeeds silently otherwise. -/
theorem c8_amended_date_validator (s : String) :
    (pyAnchoredMatch dateCoreMatch s.data = false →
        validate_date s = .error .invalidFormat) ∧
    (pyAnchoredMatch dateCoreMatch s.data = true → dateCoreMatch s.data = false →
        validate_date s = .error .invalidValue) ∧
    (dateCoreMatch s.data = true → specRealCalendarDate s.data = false →
        validate_date s = .error .invalidValue) ∧
    (dateCoreMatch s.data = true → specRealCalendarDate s.data = true →
        validate_date s = .ok ()) := by
  refine ⟨?_, ?_, ?_, ?_⟩
  · intro h
    unfold validate_date
    rw [h]
    rfl
  · intro hpy hcore
    have hdecomp : s.data.getLast? = some '\n' ∧ dateCoreMatch s.data.dropLast = true := by
      unfold pyAnchoredMatch at hpy
      rw [hcore] at hpy
      simpa using hpy
    obtain ⟨ys, hys⟩ := List.getLast?_eq_some_iff.mp hdecomp.1
    have hysd : s.data.dropLast = ys := by rw [hys, List.dropLast_concat]
    have hcore' : dateCoreMatch ys = true := by rw [← hysd]; exact hdecomp.2
    obtain ⟨y1, y2, y3, y4, m1, m2, d1, d2, hshape, h1, h2, h3, h4, h5, h6, h7, h8⟩ :=
      dateCoreMatch_inv ys hcore'
    have hstrp : strptimeYmdOk s.data = false := by
      rw [hys, hshape]
      exact strptime_shape_newline_false y1 y2 y3 y4 m1 m2 d1 d2 h1 h2 h3 h4 h5 h6 h7 h8
    unfold validate_date
    rw [hpy, hstrp]
    rfl
  · intro hcore hreal
    obtain ⟨y1, y2, y3, y4, m1, m2, d1, d2, hshape, h1, h2, h3, h4, h5, h6, h7, h8⟩ :=
      dateCoreMatch_inv s.data hcore
    have hpy : pyAnchoredMatch dateCoreMatch s.data = true := by
      unfold pyAnchoredMatch
      rw [hcore]
      rfl
    have hstrp : strptimeYmdOk s.data = false := by
      rw [Bool.eq_false_iff]
      intro hc
      rw [hshape] at hc
      have hc' : strptimeYmdOk ([y1, y2, y3, y4, '-', m1, m2, '-', d1, d2] ++ []) = true := by
        simpa using hc
      have := (strptimeYmdOk_shape y1 y2 y3 y4 m1 m2 d1 d2 []
        h1 h2 h3 h4 h5 h6 h7 h8).mp hc'
      rw [hshape] at hreal
      simp [specRealCalendarDate] at hreal
      omega
    unfold validate_date
    rw [hpy, hstrp]
    rfl
  · intro hcore hreal
    obtain ⟨y1, y2, y3, y4, m1, m2, d1, d2, hshape, h1, h2, h3, h4, h5, h6, h7, h8⟩ :=
      dateCoreMatch_inv s.data hcore
    have hpy : pyAnchoredMatch dateCoreMatch s.data = true := by
      unfold pyAnchoredMatch
      rw [hcore]
      rfl
    have hstrp : strptimeYmdOk s.data = true := by
      rw [hshape]
      rw [hshape] at hreal
      simp only [specRealCalendarDate, decide_eq_true_eq] at hreal
      have := (strptimeYmdOk_shape y1 y2 y3 y4 m1 m2 d1 d2 []
        h1 h2 h3 h4 h5 h6 h7 h8).mpr ⟨rfl, hreal.1, hreal.2.1, hreal.2.2.1,
          hreal.2.2.2.1, hreal.2.2.2.2⟩
      simpa using this
    unfold validate_date
    rw [hpy, hstrp]
    rfl

/-- Witness for C8's amended trichotomy at `"2024-02-30"`. -/
theorem c8_witness :
    pyAnchoredMatch dateCoreMatch "2024-02-30".data = true ∧
    dateCoreMatch "2024-02-30".data = true ∧
    specRealCalendarDate "2024-02-30".data = false ∧
    validate_date "2024-02-30" = .error .invalidValue :=
  ⟨by decide, by decide, by decide,
   (c8_amended_date_validator "2024-02-30").2.2.1 (by decide) (by decide)⟩

/-- `wDB` after `update_person(1, "", "a2@b.co", None)`. -/
def wDBup : DB :=
  ⟨[⟨1, "A", "a2@b.co", none⟩, ⟨2, "B", "b@b.co", none⟩],
   [⟨1, "M"⟩],
   [⟨1, "T1", "", "ToDo", "High", "2025-01-01", "2025-01-02", 1, some 1⟩,
    ⟨2, "T2", "", "Done", "Low", "2025-01-01", "2025-01-02", 2, none⟩],
   3, 2, 3⟩

/-- `wDB` after `update_task(1, person_id=2)` with all other fields absent. -/
def wDBut : DB :=
  ⟨[⟨1, "A", "a@b.co", none⟩, ⟨2, "B", "b@b.co", none⟩],
   [⟨1, "M"⟩],
   [⟨1, "T1", "", "ToDo", "High", "2025-01-01", "2025-01-02", 2, some 1⟩,
    ⟨2, "T2", "", "Done", "Low", "2025-01-01", "2025-01-02", 2, none⟩],
   3, 2, 3⟩

/-- Witness for C7: updating person 1 of `wDB` with an empty name and a new
email keeps the name; updating task 1 with only a new assignee keeps the
title. -/
theorem c7_witness :
    get_person wDB 1 = .ok ⟨1, "A", "a@b.co", none⟩ ∧
    update_person wDB 1 (some "") (some "a2@b.co") none
      = (.ok ⟨1, "A", "a2@b.co", none⟩, wDBup) ∧
    get_task wDB 1
      = .ok ⟨1, "T1", "", "ToDo", "High", "2025-01-01", "2025-01-02", 1, some 1⟩ ∧
    update_task wDB 1 none none none none none none (some 2) none
      = (.ok ⟨1, "T1", "", "ToDo", "High", "2025-01-01", "2025-01-02", 2, some 1⟩, wDBut) ∧
    ((⟨1, "A", "a2@b.co", none⟩ : PersonRow).name = (⟨1, "A", "a@b.co", none⟩ : PersonRow).name ∧
     optStrTruthy (some "a2@b.co") = true ∧
     (⟨1, "A", "a2@b.co", none⟩ : PersonRow) ∈ wDBup.persons ∧
     (⟨1, "T1", "", "ToDo", "High", "2025-01-01", "2025-01-02", 2, some 1⟩ : TaskRow).title
       = (⟨1, "T1", "", "ToDo", "High", "2025-01-01", "2025-01-02", 1, some 1⟩ : TaskRow).title ∧
     optNatTruthy (some 2) = true) := by
  have happ := c7_partial_update_sentinel wDB wDBup wDBut 1 1
    (some "") (some "a2@b.co") none none none none none none none (some 2) none
    ⟨1, "A", "a@b.co", none⟩ ⟨1, "A", "a2@b.co", none⟩
    ⟨1, "T1", "", "ToDo", "High", "2025-01-01", "2025-01-02", 1, some 1⟩
    ⟨1, "T1", "", "ToDo", "High", "2025-01-01", "2025-01-02", 2, some 1⟩
    (by decide) (by decide) (by decide) (by decide)
  refine ⟨by decide, by decide, by decide, by decide,
          happ.1.1 (by decide), happ.1.2.2.2.2.1 (by decide),
          happ.1.2.2.2.2.2.2,
          happ.2.1 (by decide), happ.2.2.2.2.2.2.2.2.2.2.2.2.2.2.1 (by decide)⟩

end PMRepo
